import Mathlib

/-!
Shallow embedding of the JoystickGremlin input-abstraction layer
(src/gremlin/input_devices.py and src/gremlin/util.py).

Python dictionaries are modelled as association lists with first-match
lookup and in-place update; Python exceptions are modelled with an
explicit error type threaded through `Except`; the SDL platform layer is
modelled as an explicit environment record; object identity of opened
device handles is modelled by tagging each construction with a fresh
natural number drawn from a counter in the state.
-/

namespace Gremlin

/-- Python exception kinds observable in this layer: `TypeError` raised by
the proxies for non-integer keys, the domain error `GremlinError`, the
`KeyError` raised by a failing dictionary subscript, and the error raised
by `struct.unpack` on a wrongly sized buffer. -/
inductive PyErr where
  | typeError (msg : String)
  | gremlinError (msg : String)
  | keyError
  | structError (msg : String)
  deriving DecidableEq, Repr

/-- Dictionary keys supplied to the proxies: an integer, or any
non-integer value (abstracted as a string tag). -/
inductive PyKey where
  | int (i : Int)
  | other (tag : String)
  deriving DecidableEq, Repr

/-- Association-list lookup with the semantics of Python `d[k]` /
`k in d`: the first binding for the key. -/
def dictGet? {K A : Type} [DecidableEq K] : List (K × A) → K → Option A
  | [], _ => none
  | (k', v) :: rest, k => if k' = k then some v else dictGet? rest k

/-- Association-list update with the semantics of Python `d[k] = v`:
replace the existing binding in place, or append a new one. -/
def dictSet {K A : Type} [DecidableEq K] : List (K × A) → K → A → List (K × A)
  | [], k, v => [(k, v)]
  | (k', v') :: rest, k, v =>
      if k' = k then (k, v) :: rest else (k', v') :: dictSet rest k v

theorem dictGet_dictSet_self {K A : Type} [DecidableEq K]
    (d : List (K × A)) (k : K) (v : A) : dictGet? (dictSet d k v) k = some v := by
  induction d with
  | nil => simp [dictSet, dictGet?]
  | cons hd tl ih =>
      obtain ⟨k', v'⟩ := hd
      by_cases h : k' = k
      · simp [dictSet, dictGet?, h]
      · simp [dictSet, dictGet?, h, ih]

theorem dictGet_dictSet_ne {K A : Type} [DecidableEq K]
    (d : List (K × A)) (k k' : K) (v : A) (h : k' ≠ k) :
    dictGet? (dictSet d k v) k' = dictGet? d k' := by
  have hne : ¬ k = k' := fun hk => h hk.symm
  induction d with
  | nil => simp [dictSet, dictGet?, hne]
  | cons hd tl ih =>
      obtain ⟨k₀, v₀⟩ := hd
      by_cases h₀ : k₀ = k
      · subst h₀
        simp [dictSet, dictGet?, hne]
      · simp [dictSet, dictGet?, h₀, ih]

theorem dictGet_dictSet_isSome {K A : Type} [DecidableEq K]
    (d : List (K × A)) (k k' : K) (v : A)
    (h : (dictGet? d k').isSome) : (dictGet? (dictSet d k v) k').isSome := by
  by_cases hk : k' = k
  · subst hk; simp [dictGet_dictSet_self]
  · rwa [dictGet_dictSet_ne d k k' v hk]

/-! ## The SDL platform environment

The native joystick API used by this layer: the number of currently
connected devices, the instance id (system id) reported for a device
opened at a given index, and the raw axis read of an opened device. -/

structure SDLEnv where
  numJoysticks : Nat
  sysId : Nat → Int
  getAxis : Nat → Int → Int

/-- A live handle to one opened physical device (class JoystickWrapper):
the 0-based open index it was created from and a unique handle number
identifying this particular opening of the device. -/
structure JoystickWrapper where
  jid : Nat
  handle : Nat
  deriving DecidableEq, Repr

/-- Mutable state touched by JoystickProxy: the process-wide cache
`JoystickProxy.joystick_devices` plus the fresh-handle counter that
models object identity of opened wrappers. -/
structure JState where
  cache : List (PyKey × JoystickWrapper)
  nextHandle : Nat
  deriving DecidableEq, Repr

/-- Constructor JoystickWrapper.__init__: raises GremlinError when the
open index exceeds the number of connected devices, otherwise opens the
device (a fresh handle). -/
def JoystickWrapper.mkWrapper (env : SDLEnv) (st : JState) (jid : Nat) :
    Except PyErr JoystickWrapper × JState :=
  if jid > env.numJoysticks then
    (.error (.gremlinError "No device with the provided ID exist"), st)
  else
    (.ok ⟨jid, st.nextHandle⟩, { st with nextHandle := st.nextHandle + 1 })

/-- Method JoystickWrapper.windows_id: the platform instance id of the
wrapped device. -/
def JoystickWrapper.windows_id (env : SDLEnv) (w : JoystickWrapper) : Int :=
  env.sysId w.jid

/-- Method JoystickWrapper.axis: 1-based axis read, raw value divided by
32768.0; the exact real arithmetic is modelled over the rationals (the
actual operands, an integer in a small range over a power of two, are
exactly representable in the source floating-point type). -/
def JoystickWrapper.axis (env : SDLEnv) (w : JoystickWrapper) (index : Int) : ℚ :=
  ((env.getAxis w.jid (index - 1) : Int) : ℚ) / 32768

/-- Loop body of JoystickProxy.__getitem__: for each open index in the
list, construct a JoystickWrapper and store it in the cache under its
windows_id.  An exception from the constructor propagates (it cannot in
fact occur for indices below the device count). -/
def openAllDevices (env : SDLEnv) (st : JState) : List Nat → Except PyErr JState
  | [] => .ok st
  | i :: rest =>
      match JoystickWrapper.mkWrapper env st i with
      | (.ok joy, st') =>
          openAllDevices env
            { st' with
                cache := dictSet st'.cache (.int (joy.windows_id env)) joy } rest
      | (.error e, _) => .error e

/-- Method JoystickProxy.__getitem__: cached keys are returned directly;
otherwise a non-integer key raises TypeError, a key above the device
count raises GremlinError, and in the remaining case every connected
device is opened and cached under its system id, after which the key is
looked up in the repopulated cache (a Python KeyError when absent). -/
def JoystickProxy.getItem (env : SDLEnv) (st : JState) (key : PyKey) :
    Except PyErr JoystickWrapper × JState :=
  match dictGet? st.cache key with
  | some w => (.ok w, st)
  | none =>
      match key with
      | .other _ => (.error (.typeError "Integer ID expected"), st)
      | .int k =>
          if k > (env.numJoysticks : Int) then
            (.error (.gremlinError "No device with the provided ID exist"), st)
          else
            match openAllDevices env st (List.range env.numJoysticks) with
            | .error e => (.error e, st)
            | .ok st' =>
                match dictGet? st'.cache key with
                | some w => (.ok w, st')
                | none => (.error .keyError, st')

/-- A constructed virtual-joystick handle (external class VJoy): the id
it was constructed with and a unique handle number identifying this
particular construction. -/
structure VJoyDevice where
  vid : Int
  handle : Nat
  deriving DecidableEq, Repr

/-- Mutable state touched by VJoyProxy: the process-wide cache
`VJoyProxy.vjoy_devices` plus the fresh-handle counter that models
object identity of constructed handles. -/
structure VState where
  cache : List (PyKey × VJoyDevice)
  nextHandle : Nat
  deriving DecidableEq, Repr

/-- Method VJoyProxy.__getitem__: cached keys are returned directly;
otherwise a non-integer key raises TypeError, and an integer key has a
fresh VJoy handle constructed, cached and returned. -/
def VJoyProxy.getItem (st : VState) (key : PyKey) :
    Except PyErr VJoyDevice × VState :=
  match dictGet? st.cache key with
  | some v => (.ok v, st)
  | none =>
      match key with
      | .other _ => (.error (.typeError "Integer ID expected"), st)
      | .int k =>
          let device : VJoyDevice := ⟨k, st.nextHandle⟩
          (.ok device,
           { cache := dictSet st.cache key device,
             nextHandle := st.nextHandle + 1 })

/-! ## Callables, dependency-injection plugins and wrappers

A Python callable in this layer is either a base user callback
(abstracted by a name and a behaviour id), the keyword-injecting wrapper
produced inside Plugin install, or the plain forwarding wrapper_fn
produced inside the DSL decorators.  Invocation is interpreted against
an arbitrary behaviour table for the base callbacks and yields both the
trace of base-callback calls performed (with the exact positional and
keyword arguments each one received) and the Python return value, where
`none` is the Python None returned by a function body with no return
statement. -/

inductive PyCallable (V : Type) where
  | base (name : String) (id : Nat)
  | injected (kw : String) (inst : V) (inner : PyCallable V)
  | forwarded (inner : PyCallable V)
  deriving DecidableEq, Repr

/-- Attribute `__name__` of a callable; `functools.wraps` copies the
name of the wrapped callback onto both wrapper kinds. -/
def PyCallable.pyName {V : Type} : PyCallable V → String
  | .base n _ => n
  | .injected _ _ inner => inner.pyName
  | .forwarded inner => inner.pyName

/-- Invocation: the injected wrapper overwrites the keyword argument
with the plugin instance and calls the wrapped callable, returning None;
the forwarding wrapper passes all arguments through unchanged and
returns None; a base callback records the call it received and returns
whatever its behaviour yields. -/
def invoke {V : Type} (β : Nat → List V → List (String × V) → Option V) :
    PyCallable V → List V → List (String × V) →
      List (Nat × List V × List (String × V)) × Option V
  | .base _ id, args, kwargs => ([(id, args, kwargs)], β id args kwargs)
  | .injected kw inst inner, args, kwargs =>
      ((invoke β inner args (dictSet kwargs kw inst)).1, none)
  | .forwarded inner, args, kwargs =>
      ((invoke β inner args kwargs).1, none)

/-- Declared parameter names of a callback, as exposed by
`inspect.Signature.parameters`. -/
structure PySignature where
  parameters : List String
  deriving DecidableEq, Repr

/-- A dependency-injection plugin: its recognised keyword and the
singleton instance it injects.  VJoyPlugin, JoystickPlugin and
KeyboardPlugin are the three instantiations. -/
structure Plugin (V : Type) where
  keyword : String
  inst : V

/-- Method install, shared by the three structurally identical plugins:
return the callback unchanged when the keyword is not among the declared
parameters, otherwise the keyword-injecting wrapper around it. -/
def Plugin.install {V : Type} (p : Plugin V) (callback : PyCallable V)
    (signature : PySignature) : PyCallable V :=
  if p.keyword ∈ signature.parameters then
    .injected p.keyword p.inst callback
  else
    callback

/-- Class VJoyPlugin, keyword "vjoy", injecting the VJoyProxy singleton
(abstracted as a value of V). -/
def VJoyPlugin {V : Type} (vjoy : V) : Plugin V := ⟨"vjoy", vjoy⟩

/-- Class JoystickPlugin, keyword "joy", injecting the JoystickProxy
singleton (abstracted as a value of V). -/
def JoystickPlugin {V : Type} (joystick : V) : Plugin V := ⟨"joy", joystick⟩

/-- Class KeyboardPlugin, keyword "keyboard", injecting the Keyboard
singleton (abstracted as a value of V). -/
def KeyboardPlugin {V : Type} (kb : V) : Plugin V := ⟨"keyboard", kb⟩

/-! ## Callback registry and the declaration DSL -/

/-- Input kinds of the external event enumeration used by the DSL. -/
inductive InputType where
  | JoystickAxis
  | JoystickButton
  | JoystickHat
  | Keyboard
  deriving DecidableEq, Repr

/-- External event descriptor, as constructed by the DSL decorators. -/
structure Event where
  event_type : InputType
  hardware_id : Int
  windows_id : Int
  identifier : Int
  deriving DecidableEq, Repr

/-- Innermost registry bucket: callback name to (callback, always_execute). -/
abbrev Bucket (V : Type) := List (String × (PyCallable V × Bool))

/-- Nested registry dictionary: device id to mode to event to bucket. -/
abbrev Registry (V : Type) :=
  List (Int × List (String × List (Event × Bucket V)))

/-- Observable state of the CallbackRegistry object together with the
warnings emitted through `logging.warning`. -/
structure RegState (V : Type) where
  registry : Registry V
  warnings : List String

/-- Lookup of one registration through all four nesting levels. -/
def registryLookup {V : Type} (st : RegState V) (device_id : Int)
    (mode : String) (event : Event) (name : String) :
    Option (PyCallable V × Bool) :=
  (dictGet? st.registry device_id).bind fun modeMap =>
    (dictGet? modeMap mode).bind fun eventMap =>
      (dictGet? eventMap event).bind fun bucket =>
        dictGet? bucket name

/-- Method CallbackRegistry.add.  The device id is derived from the
event by `util.device_id`, a function of the repository outside this
slice, abstracted as the parameter `deviceIdOf`.  The Python code
materialises missing intermediate dictionaries and then either inserts
the callback under its declared name or, when the name is already bound
in that bucket, leaves every dictionary untouched and logs a warning;
the create-if-missing steps mutate nothing on the duplicate path because
a duplicate requires all intermediate levels to exist already. -/
def CallbackRegistry.add {V : Type} (deviceIdOf : Event → Int)
    (st : RegState V) (callback : PyCallable V) (event : Event)
    (mode : String) (always_execute : Bool) : RegState V :=
  let device_id := deviceIdOf event
  let function_name := callback.pyName
  let modeMap := (dictGet? st.registry device_id).getD []
  let eventMap := (dictGet? modeMap mode).getD []
  let bucket := (dictGet? eventMap event).getD []
  match dictGet? bucket function_name with
  | none =>
      { st with
          registry :=
            dictSet st.registry device_id
              (dictSet modeMap mode
                (dictSet eventMap event
                  (dictSet bucket function_name (callback, always_execute)))) }
  | some _ =>
      { st with
          warnings :=
            st.warnings ++
              ["Function with name " ++ function_name ++
                " exists multiple times"] }

/-- External helpers the DSL decorators call: `extract_ids` and
`util.device_id` live outside this slice, the key resolution and the
from-key event constructor belong to the external macro and event
modules.  All are abstracted as components of the environment. -/
structure DslEnv where
  extract_ids : Int → Int × Int
  deviceIdOf : Event → Int
  key_from_name : String → Int
  event_from_key : Int → Event

/-- Decorator factory button: wraps the callback in a forwarding
wrapper_fn, builds a JoystickButton event from the extracted ids, and
registers the wrapper; the wrapper is returned to the caller. -/
def button {V : Type} (env : DslEnv) (button_id : Int) (device_id : Int)
    (mode : String) (always_execute : Bool) (callback : PyCallable V)
    (st : RegState V) : PyCallable V × RegState V :=
  let wrapper_fn := PyCallable.forwarded callback
  let ids := env.extract_ids device_id
  let event : Event :=
    { event_type := .JoystickButton, hardware_id := ids.1,
      windows_id := ids.2, identifier := button_id }
  (wrapper_fn,
   CallbackRegistry.add env.deviceIdOf st wrapper_fn event mode always_execute)

/-- Decorator factory hat: identical to button with a JoystickHat event. -/
def hat {V : Type} (env : DslEnv) (hat_id : Int) (device_id : Int)
    (mode : String) (always_execute : Bool) (callback : PyCallable V)
    (st : RegState V) : PyCallable V × RegState V :=
  let wrapper_fn := PyCallable.forwarded callback
  let ids := env.extract_ids device_id
  let event : Event :=
    { event_type := .JoystickHat, hardware_id := ids.1,
      windows_id := ids.2, identifier := hat_id }
  (wrapper_fn,
   CallbackRegistry.add env.deviceIdOf st wrapper_fn event mode always_execute)

/-- Decorator factory axis: identical to button with a JoystickAxis event. -/
def axis {V : Type} (env : DslEnv) (axis_id : Int) (device_id : Int)
    (mode : String) (always_execute : Bool) (callback : PyCallable V)
    (st : RegState V) : PyCallable V × RegState V :=
  let wrapper_fn := PyCallable.forwarded callback
  let ids := env.extract_ids device_id
  let event : Event :=
    { event_type := .JoystickAxis, hardware_id := ids.1,
      windows_id := ids.2, identifier := axis_id }
  (wrapper_fn,
   CallbackRegistry.add env.deviceIdOf st wrapper_fn event mode always_execute)

/-- Decorator factory keyboard: wraps the callback in a forwarding
wrapper_fn, resolves the key name and builds the keyboard event from the
resolved key, then registers the wrapper. -/
def keyboard {V : Type} (env : DslEnv) (key_name : String) (mode : String)
    (always_execute : Bool) (callback : PyCallable V) (st : RegState V) :
    PyCallable V × RegState V :=
  let wrapper_fn := PyCallable.forwarded callback
  let key := env.key_from_name key_name
  let event := env.event_from_key key
  (wrapper_fn,
   CallbackRegistry.add env.deviceIdOf st wrapper_fn event mode always_execute)

/-! ## Utility functions from src/gremlin/util.py -/

/-- SDL hat bitmask constants. -/
def SDL_HAT_UP : Nat := 1

def SDL_HAT_RIGHT : Nat := 2

def SDL_HAT_DOWN : Nat := 4

def SDL_HAT_LEFT : Nat := 8

/-- Function convert_sdl_hat: the vertical component is set from the up
bit, else from the down bit; the horizontal component from the right
bit, else from the left bit; the result is the (dx, dy) pair. -/
def convert_sdl_hat (value : Nat) : Int × Int :=
  let dy : Int :=
    if value &&& SDL_HAT_UP ≠ 0 then 1
    else if value &&& SDL_HAT_DOWN ≠ 0 then -1
    else 0
  let dx : Int :=
    if value &&& SDL_HAT_RIGHT ≠ 0 then 1
    else if value &&& SDL_HAT_LEFT ≠ 0 then -1
    else 0
  (dx, dy)

/-- Big-endian unsigned 32-bit word formed from the first four bytes of
a byte list (defaulting missing bytes to 0; callers establish length). -/
def beWord32 (bs : List Nat) : Nat :=
  match bs with
  | b0 :: b1 :: b2 :: b3 :: _ => ((b0 * 256 + b1) * 256 + b2) * 256 + b3
  | _ => 0

/-- Semantics of `struct.unpack` with format string of 4 big-endian
unsigned 32-bit words: requires a buffer of exactly 16 bytes and yields
the tuple of the four words. -/
def unpack4IBE (bs : List Nat) : Except PyErr (List Nat) :=
  if bs.length = 16 then
    .ok [beWord32 bs, beWord32 (bs.drop 4), beWord32 (bs.drop 8),
         beWord32 (bs.drop 12)]
  else
    .error (.structError "unpack requires a buffer of 16 bytes")

/-- Function guid_to_number: unpack the 16-byte GUID as four big-endian
32-bit words and keep only the first. -/
def guid_to_number (guid : List Nat) : Except PyErr Nat :=
  (unpack4IBE guid).map fun words => words.headD 0

/-- Function deadzone, modelled over the rationals: for a non-negative
value the high side formula clamped to the unit interval, for a negative
value the low side formula clamped to the negative unit interval. -/
def deadzone (value low low_center high_center high : ℚ) : ℚ :=
  if value ≥ 0 then
    min 1 (max 0 ((value - high_center) / |high - high_center|))
  else
    max (-1) (min 0 ((value - low_center) / |low - low_center|))

/-- Concrete SDL environment: one connected device whose platform
instance id is 1. -/
def envOneDevice : SDLEnv := ⟨1, fun _ => 1, fun _ _ => 0⟩

/-- Concrete SDL environment: two connected devices whose platform
instance ids are 1 and 5. -/
def envTwoDevices : SDLEnv := ⟨2, fun i => if i = 0 then 1 else 5, fun _ _ => 0⟩

/-! ## Theorems -/

theorem beWord32_eq_take (l : List Nat) : beWord32 l = beWord32 (l.take 4) := by
  match l with
  | [] => rfl
  | [_] => rfl
  | [_, _] => rfl
  | [_, _, _] => rfl
  | _ :: _ :: _ :: _ :: _ => rfl

/-- C5: for every raw axis value v in [-32768, 32767] reported by the
platform for an axis index, JoystickWrapper.axis returns exactly
v / 32768.0 with no clamping or rounding, so the result lies in
[-1, 32767/32768] and is strictly below 1. -/
theorem axis_value_spec (env : SDLEnv) (w : JoystickWrapper) (index : Int)
    (h : -32768 ≤ env.getAxis w.jid (index - 1) ∧
         env.getAxis w.jid (index - 1) ≤ 32767) :
    JoystickWrapper.axis env w index =
        ((env.getAxis w.jid (index - 1) : Int) : ℚ) / 32768
    ∧ -1 ≤ JoystickWrapper.axis env w index
    ∧ JoystickWrapper.axis env w index ≤ 32767 / 32768
    ∧ JoystickWrapper.axis env w index < 1 := by
  obtain ⟨h1, h2⟩ := h
  have q1 : (-32768 : ℚ) ≤ ((env.getAxis w.jid (index - 1) : Int) : ℚ) := by
    exact_mod_cast h1
  have q2 : ((env.getAxis w.jid (index - 1) : Int) : ℚ) ≤ 32767 := by
    exact_mod_cast h2
  refine ⟨rfl, ?_, ?_, ?_⟩
  · rw [JoystickWrapper.axis, le_div_iff₀ (by norm_num : (0:ℚ) < 32768)]
    linarith
  · rw [JoystickWrapper.axis,
        div_le_div_iff₀ (by norm_num : (0:ℚ) < 32768) (by norm_num : (0:ℚ) < 32768)]
    linarith
  · rw [JoystickWrapper.axis, div_lt_iff₀ (by norm_num : (0:ℚ) < 32768)]
    linarith

/-- Witness for C5 at a platform reporting the extreme raw values. -/
theorem axis_value_spec_witness :
    JoystickWrapper.axis ⟨1, fun _ => 1, fun _ _ => -32768⟩ ⟨0, 0⟩ 1 = -1
    ∧ JoystickWrapper.axis ⟨1, fun _ => 1, fun _ _ => 32767⟩ ⟨0, 0⟩ 1 < 1 := by
  constructor
  · have h := (axis_value_spec ⟨1, fun _ => 1, fun _ _ => -32768⟩ ⟨0, 0⟩ 1
      (by constructor <;> decide)).1
    rw [h]; norm_num
  · exact (axis_value_spec ⟨1, fun _ => 1, fun _ _ => 32767⟩ ⟨0, 0⟩ 1
      (by constructor <;> decide)).2.2.2

/-- C7: deadzone returns the high side formula clamped to [0, 1] for a
non-negative value and the low side formula clamped to [-1, 0] for a
negative value, for every limits tuple satisfying the documented
ordering; in particular the three documented evaluations hold. -/
theorem deadzone_spec (value low low_center high_center high : ℚ)
    (hb : -1 ≤ low ∧ low < low_center ∧ low_center ≤ 0 ∧
          0 ≤ high_center ∧ high_center < high ∧ high ≤ 1) :
    (0 ≤ value →
      deadzone value low low_center high_center high =
        min 1 (max 0 ((value - high_center) / |high - high_center|)))
    ∧ (value < 0 →
      deadzone value low low_center high_center high =
        max (-1) (min 0 ((value - low_center) / |low - low_center|)))
    ∧ deadzone 0 (-1) (-1/5) (1/5) 1 = 0
    ∧ deadzone 1 (-1) (-1/5) (1/5) 1 = 1
    ∧ deadzone (-1) (-1) (-1/5) (1/5) 1 = -1 := by
  refine ⟨?_, ?_, ?_, ?_, ?_⟩
  · intro h
    rw [deadzone, if_pos (by exact h)]
  · intro h
    rw [deadzone, if_neg (not_le.mpr h)]
  · rw [deadzone, if_pos (le_refl (0:ℚ)),
      show (1:ℚ) - 1/5 = 4/5 by norm_num,
      abs_of_nonneg (by norm_num : (0:ℚ) ≤ 4/5)]
    norm_num [min_def, max_def]
  · rw [deadzone, if_pos (by norm_num : (1:ℚ) ≥ 0),
      show (1:ℚ) - 1/5 = 4/5 by norm_num,
      abs_of_nonneg (by norm_num : (0:ℚ) ≤ 4/5)]
    norm_num [min_def, max_def]
  · rw [deadzone, if_neg (by norm_num : ¬ (-1:ℚ) ≥ 0),
      show (-1:ℚ) - -1/5 = -(4/5) by norm_num, abs_neg,
      abs_of_nonneg (by norm_num : (0:ℚ) ≤ 4/5)]
    norm_num [min_def, max_def]

/-- Witness for C7 at a value inside the upper active band. -/
theorem deadzone_spec_witness :
    deadzone (1/2) (-1) (-1/5) (1/5) 1 =
      min 1 (max 0 (((1:ℚ)/2 - 1/5) / |1 - 1/5|)) :=
  (deadzone_spec (1/2) (-1) (-1/5) (1/5) 1 (by norm_num)).1 (by norm_num)

/-- C8: convert_sdl_hat maps every hat bitmask to a pair in
the square with coordinates -1, 0, 1, with dy determined by the up bit
first and the down bit second, dx by the right bit first and the left
bit second; the seven documented concrete conversions hold. -/
theorem convert_sdl_hat_spec (v : Nat) :
    ((convert_sdl_hat v).2 =
        if v &&& SDL_HAT_UP ≠ 0 then 1
        else if v &&& SDL_HAT_DOWN ≠ 0 then -1 else 0)
    ∧ ((convert_sdl_hat v).1 =
        if v &&& SDL_HAT_RIGHT ≠ 0 then 1
        else if v &&& SDL_HAT_LEFT ≠ 0 then -1 else 0)
    ∧ ((convert_sdl_hat v).1 = -1 ∨ (convert_sdl_hat v).1 = 0 ∨
        (convert_sdl_hat v).1 = 1)
    ∧ ((convert_sdl_hat v).2 = -1 ∨ (convert_sdl_hat v).2 = 0 ∨
        (convert_sdl_hat v).2 = 1)
    ∧ convert_sdl_hat SDL_HAT_UP = (0, 1)
    ∧ convert_sdl_hat SDL_HAT_DOWN = (0, -1)
    ∧ convert_sdl_hat SDL_HAT_LEFT = (-1, 0)
    ∧ convert_sdl_hat SDL_HAT_RIGHT = (1, 0)
    ∧ convert_sdl_hat (SDL_HAT_UP ||| SDL_HAT_RIGHT) = (1, 1)
    ∧ convert_sdl_hat (SDL_HAT_DOWN ||| SDL_HAT_LEFT) = (-1, -1)
    ∧ convert_sdl_hat 0 = (0, 0) := by
  have hdx : (convert_sdl_hat v).1 =
      (if v &&& SDL_HAT_RIGHT ≠ 0 then (1:Int)
       else if v &&& SDL_HAT_LEFT ≠ 0 then -1 else 0) := rfl
  have hdy : (convert_sdl_hat v).2 =
      (if v &&& SDL_HAT_UP ≠ 0 then (1:Int)
       else if v &&& SDL_HAT_DOWN ≠ 0 then -1 else 0) := rfl
  refine ⟨rfl, rfl, ?_, ?_, by decide, by decide, by decide, by decide,
    by decide, by decide, by decide⟩
  · rw [hdx]; split_ifs <;> simp
  · rw [hdy]; split_ifs <;> simp

/-- C9: guid_to_number succeeds exactly on 16-byte sequences, returning
the leading big-endian 32-bit word; any two 16-byte GUIDs agreeing on
their first 4 bytes reduce to the same hardware id. -/
theorem guid_to_number_spec (g g1 g2 : List Nat) :
    (g.length = 16 → guid_to_number g = .ok (beWord32 g))
    ∧ (g.length ≠ 16 →
        guid_to_number g =
          .error (.structError "unpack requires a buffer of 16 bytes"))
    ∧ (g1.length = 16 → g2.length = 16 → g1.take 4 = g2.take 4 →
        guid_to_number g1 = guid_to_number g2) := by
  refine ⟨?_, ?_, ?_⟩
  · intro h
    simp [guid_to_number, unpack4IBE, h, Except.map]
  · intro h
    simp [guid_to_number, unpack4IBE, h, Except.map]
  · intro h1 h2 htake
    have hw : beWord32 g1 = beWord32 g2 := by
      rw [beWord32_eq_take g1, beWord32_eq_take g2, htake]
    simp [guid_to_number, unpack4IBE, h1, h2, Except.map, hw]

/-- Witness for C9: a concrete 16-byte GUID, its leading word, a
wrongly sized buffer, and a trailing-bytes collision. -/
theorem guid_to_number_spec_witness :
    guid_to_number [1, 2, 3, 4, 5, 6, 7, 8, 9, 10, 11, 12, 13, 14, 15, 16] =
      .ok (((1 * 256 + 2) * 256 + 3) * 256 + 4)
    ∧ guid_to_number [1, 2, 3] =
        .error (.structError "unpack requires a buffer of 16 bytes")
    ∧ guid_to_number [1, 2, 3, 4, 5, 6, 7, 8, 9, 10, 11, 12, 13, 14, 15, 16] =
        guid_to_number [1, 2, 3, 4, 0, 0, 0, 0, 0, 0, 0, 0, 0, 0, 0, 0] := by
  refine ⟨?_, ?_, ?_⟩
  · exact (guid_to_number_spec
      [1, 2, 3, 4, 5, 6, 7, 8, 9, 10, 11, 12, 13, 14, 15, 16] [] []).1 (by decide)
  · exact ((guid_to_number_spec [1, 2, 3] [] []).2).1 (by decide)
  · exact ((guid_to_number_spec []
      [1, 2, 3, 4, 5, 6, 7, 8, 9, 10, 11, 12, 13, 14, 15, 16]
      [1, 2, 3, 4, 0, 0, 0, 0, 0, 0, 0, 0, 0, 0, 0, 0]).2).2
      (by decide) (by decide) (by decide)

/-- C6: when the plugin keyword is absent from the signature, install
returns the original callback itself; when present, it returns the
injecting wrapper, which carries the original declared name and on every
invocation calls the original callback with the positional arguments
unchanged and the keyword argument overridden to the plugin singleton,
all other keyword arguments unchanged, as witnessed by the call trace. -/
theorem plugin_install_spec {V : Type} (p : Plugin V) (cb : PyCallable V)
    (sig : PySignature) :
    (p.keyword ∉ sig.parameters → p.install cb sig = cb)
    ∧ (p.keyword ∈ sig.parameters →
        p.install cb sig = .injected p.keyword p.inst cb
        ∧ (p.install cb sig).pyName = cb.pyName
        ∧ ∀ (β : Nat → List V → List (String × V) → Option V)
            (args : List V) (kwargs : List (String × V)),
            invoke β (p.install cb sig) args kwargs =
              ((invoke β cb args (dictSet kwargs p.keyword p.inst)).1, none)
            ∧ dictGet? (dictSet kwargs p.keyword p.inst) p.keyword = some p.inst
            ∧ ∀ k, k ≠ p.keyword →
                dictGet? (dictSet kwargs p.keyword p.inst) k =
                  dictGet? kwargs k) := by
  constructor
  · intro h
    simp [Plugin.install, h]
  · intro h
    have hi : p.install cb sig = .injected p.keyword p.inst cb := by
      simp [Plugin.install, h]
    refine ⟨hi, by rw [hi]; rfl, ?_⟩
    intro β args kwargs
    exact ⟨by rw [hi]; rfl, dictGet_dictSet_self _ _ _,
      fun k hk => dictGet_dictSet_ne _ _ _ _ hk⟩

/-- Witness for C6: a callback without the keyword passes through
install unchanged, one with the keyword gains the injecting wrapper. -/
theorem plugin_install_spec_witness :
    Plugin.install (VJoyPlugin "proxy") (.base "cb" 0) ⟨["x", "y"]⟩ =
      .base "cb" 0
    ∧ Plugin.install (VJoyPlugin "proxy") (.base "cb" 0) ⟨["vjoy"]⟩ =
        .injected "vjoy" "proxy" (.base "cb" 0) := by
  constructor
  · exact (plugin_install_spec (VJoyPlugin "proxy") (.base "cb" 0)
      ⟨["x", "y"]⟩).1 (by decide)
  · exact ((plugin_install_spec (VJoyPlugin "proxy") (.base "cb" 0)
      ⟨["vjoy"]⟩).2 (by decide)).1

/-- C10: the injecting wrapper produced by a plugin install and the
forwarding wrapper returned by each DSL decorator always return None,
discarding the wrapped callback return value, whatever the behaviour of
the wrapped callback and whatever the arguments. -/
theorem wrapper_returns_none {V : Type}
    (β : Nat → List V → List (String × V) → Option V) (p : Plugin V)
    (cb : PyCallable V) (sig : PySignature) (envD : DslEnv) (st : RegState V)
    (args : List V) (kwargs : List (String × V)) (eid did : Int)
    (mode : String) (ae : Bool) (key_name : String) :
    (p.keyword ∈ sig.parameters →
      (invoke β (p.install cb sig) args kwargs).2 = none)
    ∧ (invoke β (button envD eid did mode ae cb st).1 args kwargs).2 = none
    ∧ (invoke β (hat envD eid did mode ae cb st).1 args kwargs).2 = none
    ∧ (invoke β (axis envD eid did mode ae cb st).1 args kwargs).2 = none
    ∧ (invoke β (keyboard envD key_name mode ae cb st).1 args kwargs).2 =
        none := by
  refine ⟨?_, rfl, rfl, rfl, rfl⟩
  intro h
  simp [Plugin.install, h, invoke]

/-- Witness for C10: the injected wrapper around a callback returning a
value still returns None. -/
theorem wrapper_returns_none_witness :
    (invoke (V := String) (fun _ _ _ => some "r")
      (Plugin.install (VJoyPlugin "proxy") (.base "cb" 0) ⟨["vjoy"]⟩)
      [] []).2 = none :=
  (wrapper_returns_none (fun _ _ _ => some "r") (VJoyPlugin "proxy")
    (.base "cb" 0) ⟨["vjoy"]⟩
    ⟨fun _ => (0, 0), fun _ => 0, fun _ => 0, fun _ => ⟨.Keyboard, 0, 0, 0⟩⟩
    ⟨[], []⟩ [] [] 0 0 "m" false "a").1 (by decide)

theorem registryLookup_as_bucket {V : Type} (st : RegState V) (D : Int)
    (mode : String) (event : Event) (name : String) :
    registryLookup st D mode event name =
      dictGet?
        ((dictGet?
            ((dictGet? ((dictGet? st.registry D).getD []) mode).getD [])
            event).getD []) name := by
  unfold registryLookup
  cases h1 : dictGet? st.registry D with
  | none => simp [dictGet?]
  | some m =>
      simp only [Option.some_bind, Option.getD_some]
      cases h2 : dictGet? m mode with
      | none => simp [dictGet?]
      | some em =>
          simp only [Option.some_bind, Option.getD_some]
          cases h3 : dictGet? em event with
          | none => simp [dictGet?]
          | some b => simp

theorem callbackRegistry_add_miss {V : Type} (deviceIdOf : Event → Int)
    (st : RegState V) (cb : PyCallable V) (event : Event) (mode : String)
    (a : Bool)
    (h : registryLookup st (deviceIdOf event) mode event cb.pyName = none) :
    (∀ n, registryLookup (CallbackRegistry.add deviceIdOf st cb event mode a)
        (deviceIdOf event) mode event n =
      if n = cb.pyName then some (cb, a)
      else registryLookup st (deviceIdOf event) mode event n)
    ∧ (CallbackRegistry.add deviceIdOf st cb event mode a).warnings =
        st.warnings := by
  rw [registryLookup_as_bucket] at h
  have hadd : CallbackRegistry.add deviceIdOf st cb event mode a =
      { st with
          registry :=
            dictSet st.registry (deviceIdOf event)
              (dictSet ((dictGet? st.registry (deviceIdOf event)).getD []) mode
                (dictSet
                  ((dictGet?
                      ((dictGet? st.registry (deviceIdOf event)).getD [])
                      mode).getD [])
                  event
                  (dictSet
                    ((dictGet?
                        ((dictGet?
                            ((dictGet? st.registry (deviceIdOf event)).getD [])
                            mode).getD [])
                        event).getD [])
                    cb.pyName (cb, a)))) } := by
    unfold CallbackRegistry.add
    dsimp only
    split
    · rfl
    · rename_i v heq
      rw [h] at heq
      cases heq
  refine ⟨?_, by rw [hadd]⟩
  intro n
  rw [hadd]
  unfold registryLookup
  simp only [dictGet_dictSet_self, Option.some_bind]
  by_cases hn : n = cb.pyName
  · simp [hn, dictGet_dictSet_self]
  · rw [dictGet_dictSet_ne _ _ _ _ hn, if_neg hn]
    exact (registryLookup_as_bucket st (deviceIdOf event) mode event n).symm

theorem callbackRegistry_add_dup {V : Type} (deviceIdOf : Event → Int)
    (st : RegState V) (cb : PyCallable V) (event : Event) (mode : String)
    (a : Bool) (entry : PyCallable V × Bool)
    (h : registryLookup st (deviceIdOf event) mode event cb.pyName =
          some entry) :
    CallbackRegistry.add deviceIdOf st cb event mode a =
      { st with
          warnings :=
            st.warnings ++
              ["Function with name " ++ cb.pyName ++
                " exists multiple times"] } := by
  rw [registryLookup_as_bucket] at h
  unfold CallbackRegistry.add
  dsimp only
  split
  · rename_i heq
    rw [h] at heq
    cases heq
  · rfl

/-- C1: adding two callbacks with distinct declared names to the same
(device id, mode, event) bucket keeps both registrations with their
flags; adding a callback whose declared name is already bound in that
exact bucket leaves the registry unchanged and appends the duplicate
warning to the log (add is a total function: no error is raised). -/
theorem callbackRegistry_duplicate_policy {V : Type}
    (deviceIdOf : Event → Int) (st : RegState V) (cb1 cb2 cb : PyCallable V)
    (event : Event) (mode : String) (a1 a2 a : Bool)
    (entry : PyCallable V × Bool) :
    (registryLookup st (deviceIdOf event) mode event cb1.pyName = none →
     registryLookup st (deviceIdOf event) mode event cb2.pyName = none →
     cb1.pyName ≠ cb2.pyName →
     registryLookup
        (CallbackRegistry.add deviceIdOf
          (CallbackRegistry.add deviceIdOf st cb1 event mode a1)
          cb2 event mode a2)
        (deviceIdOf event) mode event cb1.pyName = some (cb1, a1)
     ∧ registryLookup
        (CallbackRegistry.add deviceIdOf
          (CallbackRegistry.add deviceIdOf st cb1 event mode a1)
          cb2 event mode a2)
        (deviceIdOf event) mode event cb2.pyName = some (cb2, a2))
    ∧ (registryLookup st (deviceIdOf event) mode event cb.pyName =
          some entry →
       (CallbackRegistry.add deviceIdOf st cb event mode a).registry =
          st.registry
       ∧ (CallbackRegistry.add deviceIdOf st cb event mode a).warnings =
          st.warnings ++
            ["Function with name " ++ cb.pyName ++
              " exists multiple times"]) := by
  constructor
  · intro h1 h2 hne
    have hm1 := callbackRegistry_add_miss deviceIdOf st cb1 event mode a1 h1
    have h2' : registryLookup
        (CallbackRegistry.add deviceIdOf st cb1 event mode a1)
        (deviceIdOf event) mode event cb2.pyName = none := by
      rw [hm1.1 cb2.pyName, if_neg (fun hx => hne hx.symm), h2]
    have hm2 := callbackRegistry_add_miss deviceIdOf
      (CallbackRegistry.add deviceIdOf st cb1 event mode a1)
      cb2 event mode a2 h2'
    constructor
    · rw [hm2.1 cb1.pyName, if_neg hne, hm1.1 cb1.pyName, if_pos rfl]
    · rw [hm2.1 cb2.pyName, if_pos rfl]
  · intro h
    have hd := callbackRegistry_add_dup deviceIdOf st cb event mode a entry h
    rw [hd]
    exact ⟨rfl, rfl⟩

/-- Witness for C1: two distinct names both registered in a concrete
bucket; a duplicate registration leaves the registry unchanged and logs
the warning. -/
theorem callbackRegistry_duplicate_policy_witness :
    registryLookup
      (CallbackRegistry.add (V := Unit) (fun _ => 7)
        (CallbackRegistry.add (fun _ => 7) ⟨[], []⟩
          (.base "f" 0) ⟨.JoystickButton, 0, 0, 1⟩ "global" true)
        (.base "g" 1) ⟨.JoystickButton, 0, 0, 1⟩ "global" false)
      7 "global" ⟨.JoystickButton, 0, 0, 1⟩ "f" = some (.base "f" 0, true)
    ∧ registryLookup
      (CallbackRegistry.add (V := Unit) (fun _ => 7)
        (CallbackRegistry.add (fun _ => 7) ⟨[], []⟩
          (.base "f" 0) ⟨.JoystickButton, 0, 0, 1⟩ "global" true)
        (.base "g" 1) ⟨.JoystickButton, 0, 0, 1⟩ "global" false)
      7 "global" ⟨.JoystickButton, 0, 0, 1⟩ "g" = some (.base "g" 1, false) := by
  have := (callbackRegistry_duplicate_policy (V := Unit) (fun _ => 7)
    ⟨[], []⟩ (.base "f" 0) (.base "g" 1) (.base "f" 0)
    ⟨.JoystickButton, 0, 0, 1⟩ "global" true false true
    (.base "f" 0, true)).1 rfl rfl (by decide)
  exact this

theorem openAllDevices_preserves (env : SDLEnv) (l : List Nat) :
    ∀ (st st' : JState), openAllDevices env st l = .ok st' →
    ∀ k, (dictGet? st.cache k).isSome → (dictGet? st'.cache k).isSome := by
  induction l with
  | nil =>
      intro st st' h k hk
      cases h
      exact hk
  | cons i rest ih =>
      intro st st' h k hk
      by_cases hi : i > env.numJoysticks
      · simp [openAllDevices, JoystickWrapper.mkWrapper, hi] at h
      · simp only [openAllDevices, JoystickWrapper.mkWrapper, hi,
          if_false, reduceIte] at h
        exact ih _ _ h k (dictGet_dictSet_isSome _ _ _ _ hk)

theorem openAllDevices_spec (env : SDLEnv) (l : List Nat) :
    ∀ st : JState, (∀ i ∈ l, i ≤ env.numJoysticks) →
    ∃ st', openAllDevices env st l = .ok st'
      ∧ st'.nextHandle = st.nextHandle + l.length
      ∧ ∀ i ∈ l, (dictGet? st'.cache (.int (env.sysId i))).isSome := by
  induction l with
  | nil =>
      intro st _
      exact ⟨st, rfl, by simp, by simp⟩
  | cons i rest ih =>
      intro st hl
      have hi : ¬ i > env.numJoysticks := by
        have := hl i (List.mem_cons_self i rest)
        omega
      obtain ⟨st', hok, hnh, hmem⟩ :=
        ih { cache := dictSet st.cache (.int (env.sysId i)) ⟨i, st.nextHandle⟩,
             nextHandle := st.nextHandle + 1 }
          (fun j hj => hl j (List.mem_cons_of_mem i hj))
      refine ⟨st', ?_, ?_, ?_⟩
      · simp only [openAllDevices, JoystickWrapper.mkWrapper, hi,
          if_false, reduceIte]
        exact hok
      · rw [hnh]; simp; omega
      · intro j hj
        rcases List.mem_cons.mp hj with hj | hj
        · subst hj
          refine openAllDevices_preserves env rest _ _ hok _ ?_
          simp [dictGet_dictSet_self]
        · exact hmem j hj

/-- C2 (amended): an uncached non-integer key fails with TypeError; an
uncached integer key above the connected-device count fails with the
GremlinError domain error; an uncached integer key within the count
opens every connected device afresh, caches each under its system id,
and then serves the key from the repopulated cache, failing with a
KeyError when no opened device reported that system id; a lookup for a
key present in the cache is served from the cache with no state change
and no device opening. -/
theorem joystickProxy_getItem_spec (env : SDLEnv) (st : JState) (key : PyKey)
    (hmiss : dictGet? st.cache key = none) :
    (∀ tag, key = .other tag →
      JoystickProxy.getItem env st key =
        (.error (.typeError "Integer ID expected"), st))
    ∧ (∀ k : Int, key = .int k → k > (env.numJoysticks : Int) →
      JoystickProxy.getItem env st key =
        (.error (.gremlinError "No device with the provided ID exist"), st))
    ∧ (∀ k : Int, key = .int k → ¬ k > (env.numJoysticks : Int) →
      ∃ st', openAllDevices env st (List.range env.numJoysticks) = .ok st'
        ∧ st'.nextHandle = st.nextHandle + env.numJoysticks
        ∧ (∀ i < env.numJoysticks,
            (dictGet? st'.cache (.int (env.sysId i))).isSome)
        ∧ JoystickProxy.getItem env st key =
            (match dictGet? st'.cache key with
             | some w => .ok w
             | none => .error .keyError, st'))
    ∧ (∀ (env₂ : SDLEnv) (st₂ : JState) (key₂ : PyKey) (w : JoystickWrapper),
        dictGet? st₂.cache key₂ = some w →
        JoystickProxy.getItem env₂ st₂ key₂ = (.ok w, st₂)) := by
  refine ⟨?_, ?_, ?_, ?_⟩
  · intro tag hk
    subst hk
    simp [JoystickProxy.getItem, hmiss]
  · intro k hk hgt
    subst hk
    simp [JoystickProxy.getItem, hmiss, hgt]
  · intro k hk hle
    subst hk
    obtain ⟨st', hok, hnh, hmem⟩ :=
      openAllDevices_spec env (List.range env.numJoysticks) st
        (fun i hi => Nat.le_of_lt (List.mem_range.mp hi))
    refine ⟨st', hok, by rw [hnh]; simp, fun i hi => hmem i (List.mem_range.mpr hi), ?_⟩
    simp only [JoystickProxy.getItem, hmiss, hle, hok, if_false, reduceIte]
    cases dictGet? st'.cache (PyKey.int k) <;> rfl
  · intro env₂ st₂ key₂ w h
    simp [JoystickProxy.getItem, h]

/-- Witness for C2 at a concrete environment: an uncached non-integer
key raises TypeError, and a cached key is served from the cache. -/
theorem joystickProxy_getItem_spec_witness :
    JoystickProxy.getItem envOneDevice ⟨[], 0⟩ (.other "x") =
      (.error (.typeError "Integer ID expected"), ⟨[], 0⟩)
    ∧ JoystickProxy.getItem envOneDevice ⟨[(.int 1, ⟨0, 0⟩)], 1⟩ (.int 1) =
        (.ok ⟨0, 0⟩, ⟨[(.int 1, ⟨0, 0⟩)], 1⟩) := by
  constructor
  · exact (joystickProxy_getItem_spec envOneDevice ⟨[], 0⟩ (.other "x")
      rfl).1 "x" rfl
  · exact (joystickProxy_getItem_spec envOneDevice ⟨[], 0⟩ (.other "x")
      rfl).2.2.2 envOneDevice ⟨[(.int 1, ⟨0, 0⟩)], 1⟩ (.int 1) ⟨0, 0⟩ rfl

/-- C2 counterexample: with one connected device of system id 1, looking
up the uncached integer key 0 (not exceeding the device count) raises
KeyError instead of returning a cache entry; with two connected devices
of system ids 1 and 5, a subsequent lookup of the uncached key 2
re-opens both devices, raising the handle counter from 2 to 4. -/
theorem joystickProxy_getItem_counterexample :
    (JoystickProxy.getItem envOneDevice ⟨[], 0⟩ (.int 0)).1 =
      .error .keyError
    ∧ ((JoystickProxy.getItem envTwoDevices ⟨[], 0⟩ (.int 1)).2).nextHandle = 2
    ∧ ((JoystickProxy.getItem envTwoDevices
        ((JoystickProxy.getItem envTwoDevices ⟨[], 0⟩ (.int 1)).2)
        (.int 2)).2).nextHandle = 4 :=
  ⟨rfl, rfl, rfl⟩

/-- C3 (amended): an uncached non-integer key on the virtual joystick
proxy fails with TypeError; this kind is distinct from the GremlinError
domain kind raised for a device index beyond the connected count, so
the layer raises two distinct error kinds for its domain-specific
failures rather than one. -/
theorem vjoyProxy_nonint_key_spec :
    (∀ (st : VState) (key : PyKey) (tag : String),
        dictGet? st.cache key = none → key = .other tag →
        VJoyProxy.getItem st key =
          (.error (.typeError "Integer ID expected"), st))
    ∧ (∀ m1 m2 : String, PyErr.typeError m1 ≠ PyErr.gremlinError m2) := by
  constructor
  · intro st key tag h hk
    subst hk
    simp [VJoyProxy.getItem, h]
  · intro m1 m2 hx
    cases hx

/-- Witness for C3: the concrete non-integer lookup failure. -/
theorem vjoyProxy_nonint_key_spec_witness :
    VJoyProxy.getItem ⟨[], 0⟩ (.other "x") =
      (.error (.typeError "Integer ID expected"), ⟨[], 0⟩) :=
  vjoyProxy_nonint_key_spec.1 ⟨[], 0⟩ (.other "x") "x" rfl rfl

/-- C3 counterexample: the non-integer lookup failure is a TypeError,
while the out-of-range device index failure is a GremlinError, and the
two kinds are distinct, refuting the single-error-kind reading. -/
theorem vjoyProxy_nonint_key_counterexample :
    (VJoyProxy.getItem ⟨[], 0⟩ (.other "name")).1 =
      .error (.typeError "Integer ID expected")
    ∧ (JoystickWrapper.mkWrapper envOneDevice ⟨[], 0⟩ 5).1 =
        .error (.gremlinError "No device with the provided ID exist")
    ∧ PyErr.typeError "Integer ID expected" ≠
        PyErr.gremlinError "No device with the provided ID exist" :=
  ⟨rfl, rfl, by decide⟩

/-- C4 (amended): the virtual joystick proxy returns the identical
cached instance on repeated lookups with the same key, constructs
exactly one handle per distinct integer key, and never replaces or
evicts a cached entry; the physical joystick proxy serves a lookup for
an already cached key from the cache with the identical instance and no
state change, but a miss repopulates its cache and can replace entries. -/
theorem proxy_cache_spec :
    (∀ (st : VState) (key : PyKey) (v : VJoyDevice) (st₂ : VState),
        VJoyProxy.getItem st key = (.ok v, st₂) →
        VJoyProxy.getItem st₂ key = (.ok v, st₂))
    ∧ (∀ (st : VState) (key : PyKey) (v : VJoyDevice),
        dictGet? st.cache key = some v →
        VJoyProxy.getItem st key = (.ok v, st))
    ∧ (∀ (st : VState) (k : Int),
        dictGet? st.cache (.int k) = none →
        VJoyProxy.getItem st (.int k) =
          (.ok ⟨k, st.nextHandle⟩,
           ⟨dictSet st.cache (.int k) ⟨k, st.nextHandle⟩,
            st.nextHandle + 1⟩))
    ∧ (∀ (st : VState) (key k' : PyKey) (v' : VJoyDevice),
        dictGet? st.cache k' = some v' →
        dictGet? ((VJoyProxy.getItem st key).2).cache k' = some v')
    ∧ (∀ (env : SDLEnv) (st : JState) (key : PyKey) (w : JoystickWrapper),
        dictGet? st.cache key = some w →
        JoystickProxy.getItem env st key = (.ok w, st)) := by
  have hhit : ∀ (st : VState) (key : PyKey) (v : VJoyDevice),
      dictGet? st.cache key = some v →
      VJoyProxy.getItem st key = (.ok v, st) := by
    intro st key v h
    simp [VJoyProxy.getItem, h]
  have hmiss : ∀ (st : VState) (k : Int),
      dictGet? st.cache (.int k) = none →
      VJoyProxy.getItem st (.int k) =
        (.ok ⟨k, st.nextHandle⟩,
         ⟨dictSet st.cache (.int k) ⟨k, st.nextHandle⟩, st.nextHandle + 1⟩) := by
    intro st k h
    simp [VJoyProxy.getItem, h]
  refine ⟨?_, hhit, hmiss, ?_, ?_⟩
  · intro st key v st₂ h
    cases hc : dictGet? st.cache key with
    | some v0 =>
        rw [hhit st key v0 hc] at h
        obtain ⟨hv, hst⟩ := Prod.mk.injEq .. ▸ h
        cases hv
        subst hst
        exact hhit st key v hc
    | none =>
        cases key with
        | other tag => simp [VJoyProxy.getItem, hc] at h
        | int k =>
            rw [hmiss st k hc] at h
            obtain ⟨hv, hst⟩ := Prod.mk.injEq .. ▸ h
            cases hv
            subst hst
            exact hhit _ _ _ (dictGet_dictSet_self _ _ _)
  · intro st key k' v' h
    cases hc : dictGet? st.cache key with
    | some v0 => rw [hhit st key v0 hc]; exact h
    | none =>
        cases key with
        | other tag => simp [VJoyProxy.getItem, hc]; exact h
        | int k =>
            rw [hmiss st k hc]
            have hne : k' ≠ PyKey.int k := by
              intro hx
              rw [hx, hc] at h
              cases h
            simp only
            rw [dictGet_dictSet_ne _ _ _ _ hne]
            exact h
  · intro env st key w h
    simp [JoystickProxy.getItem, h]

/-- Witness for C4: a concrete miss constructs and caches one handle. -/
theorem proxy_cache_spec_witness :
    VJoyProxy.getItem ⟨[], 0⟩ (.int 1) =
      (.ok ⟨1, 0⟩, ⟨[(.int 1, ⟨1, 0⟩)], 1⟩) :=
  proxy_cache_spec.2.2.1 ⟨[], 0⟩ 1 rfl

/-- C4 counterexample: on the physical proxy with two connected devices,
the wrapper cached under key 1 after a first lookup is replaced by a
freshly opened wrapper when a later lookup for the uncached key 2
repopulates the cache, so an entry is replaced and a device re-opened. -/
theorem proxy_cache_counterexample :
    dictGet? ((JoystickProxy.getItem envTwoDevices ⟨[], 0⟩
        (.int 1)).2).cache (.int 1) = some ⟨0, 0⟩
    ∧ dictGet? ((JoystickProxy.getItem envTwoDevices
        ((JoystickProxy.getItem envTwoDevices ⟨[], 0⟩ (.int 1)).2)
        (.int 2)).2).cache (.int 1) = some ⟨0, 2⟩
    ∧ (⟨0, 0⟩ : JoystickWrapper) ≠ ⟨0, 2⟩ :=
  ⟨rfl, rfl, by decide⟩

end Gremlin
